import Mathlib

/-!
Shallow embedding of the request-execution core of the amazon-sp-api-mcp
repository: the retry/backoff error handler
(amazon_sp_api_mcp/client/error_handler.py), the HTTP response handling
(amazon_sp_api_mcp/client/http_client.py), the LWA token manager
(amazon_sp_api_mcp/auth/lwa_auth.py), the token-bucket rate limiter
(amazon_sp_api_mcp/client/rate_limiter.py) and the request-building part
of the pipeline (SPAPIClient.request together with
AWSAuthManager.create_signed_request).

Conventions: wall-clock times, token counts and backoff durations are
rationals standing for the Python floats; Python dicts whose keys are known
statically become structures of Option fields (a field is some v exactly
when the key is present); fallible Python code returns Except; the
truthiness tests the source performs on strings, Options and dicts are
modelled explicitly.
-/

/-- Parsed response data produced by SPAPIClient. Mirrors the three shapes
that _execute_request can hand back: the 204 empty-success marker
(the dict with success mapped to True), a parsed JSON document (identified
by its source text), or the raw-text fallback wrapper the code builds when
JSON parsing fails. -/
inductive RespData where
  | success : RespData
  | json (body : String) : RespData
  | rawContent (text : String) : RespData
deriving DecidableEq

/-- The details dict attached to an SPAPIError. Each field models one key
the source ever stores there; a field is some v exactly when the key is
present in the dict. -/
structure SPAPIDetails where
  status_code : Option Nat := none
  response : Option RespData := none
  url : Option String := none
  method : Option String := none
  original_error : Option String := none
deriving DecidableEq

/-- Python truthiness of the details dict: non-empty means at least one key
is present. -/
def SPAPIDetails.truthy (d : SPAPIDetails) : Bool :=
  d.status_code.isSome || d.response.isSome || d.url.isSome ||
    d.method.isSome || d.original_error.isSome

/-- Exceptions that can flow into SPAPIErrorHandler: the SPAPIError class
of http_client.py with its message and details dict, the builtin
ConnectionError and TimeoutError the classifier tests for, and any other
exception. -/
inductive PyError where
  | spapiError (msg : String) (details : SPAPIDetails)
  | connectionError
  | timeoutError
  | otherError (msg : String)
deriving DecidableEq

/-- Runtime faults raised by the classifier itself (a comparison of int
with None raises TypeError in Python). -/
inductive PyExc where
  | typeError
deriving DecidableEq

/-- The server-overload status codes listed in SPAPIErrorHandler, from the
list literal in _should_retry. -/
def retry_status_codes : List Nat := [429, 500, 502, 503, 504]

/-- Embedding of SPAPIErrorHandler._should_retry. For an SPAPIError with a
truthy details dict the source reads status_code and runs three tests in
order: membership in retry_status_codes, equality with 401, and the
chained comparison 400 <= status_code < 500. When status_code is absent
(details.get returns None) the first two tests are False in Python but the
chained comparison raises TypeError, which is modelled by the error branch.
When no test returns, control falls through to the isinstance checks for
ConnectionError and TimeoutError and finally to return False. -/
def should_retry : PyError → Except PyExc Bool
  | .spapiError _ d =>
    if d.truthy then
      match d.status_code with
      | some sc =>
        if sc ∈ retry_status_codes then .ok true
        else if sc = 401 then .ok true
        else if 400 ≤ sc ∧ sc < 500 then .ok false
        else .ok false
      | none => .error .typeError
    else .ok false
  | .connectionError => .ok true
  | .timeoutError => .ok true
  | .otherError _ => .ok false

/-- Embedding of SPAPIErrorHandler._calculate_backoff: base delay 2^attempt
seconds, multiplied by the jitter sample and capped at 60 seconds. The
jitter value (drawn by random.uniform(0.5, 1.5) in the source) is passed in
explicitly. -/
def calculate_backoff (attempt : Nat) (jitter : ℚ) : ℚ :=
  min 60 (2 ^ attempt * jitter)

/-- Outcome of execute_with_retry, recording the total number of attempts
made: the returned value, the re-raised caught exception, a crash of the
classifier itself, or the implicit return None after the loop (unreachable
when the fuel equals the iteration count of the for loop). -/
inductive RetryOutcome (α : Type) where
  | success (value : α) (attempts : Nat)
  | failure (err : PyError) (attempts : Nat)
  | crashed (exc : PyExc) (attempts : Nat)
  | fellThrough (attempts : Nat)
deriving DecidableEq

/-- One iteration of the for loop in execute_with_retry, with explicit fuel
equal to the number of remaining iterations of range(max_retries + 1). The
attempt outcomes are given as a function from attempt index to the result
of the wrapped call. On failure the source re-raises when this was the
last allowed attempt or when _should_retry says not to retry; a TypeError
raised inside _should_retry propagates out of the except handler. The
backoff sleep between attempts does not affect control flow and is not
modelled here (it is modelled by calculate_backoff). -/
def retry_loop {α : Type} (f : Nat → Except PyError α) (max_retries : Nat) :
    Nat → Nat → RetryOutcome α
  | attempt, fuel + 1 =>
    match f attempt with
    | .ok v => .success v (attempt + 1)
    | .error e =>
      if attempt = max_retries then .failure e (attempt + 1)
      else
        match should_retry e with
        | .error exc => .crashed exc (attempt + 1)
        | .ok true => retry_loop f max_retries (attempt + 1) fuel
        | .ok false => .failure e (attempt + 1)
  | attempt, 0 => .fellThrough attempt

/-- Embedding of SPAPIErrorHandler.execute_with_retry: the for loop runs
over attempt indices 0 .. max_retries. -/
def execute_with_retry {α : Type} (max_retries : Nat)
    (f : Nat → Except PyError α) : RetryOutcome α :=
  retry_loop f max_retries 0 (max_retries + 1)

/-- A transport-level HTTP response as seen by _execute_request: status
code, body text, and whether response.json() succeeds on it. -/
structure HttpResponse where
  status_code : Nat
  body_text : String
  parses : Bool
deriving DecidableEq

/-- Result of the session.request call inside _execute_request: either a
response or a requests.RequestException. -/
inductive TransportResult where
  | got (r : HttpResponse)
  | requestException (msg : String)
deriving DecidableEq

/-- The response_data computation of _execute_request: response.json() when
it parses, otherwise the raw_content fallback dict. -/
def parse_body (r : HttpResponse) : RespData :=
  if r.parses then .json r.body_text else .rawContent r.body_text

/-- Embedding of SPAPIClient._execute_request. A RequestException is
wrapped into an SPAPIError whose details carry only original_error; a 204
response returns the empty-success marker; otherwise the body is parsed
with the raw-text fallback, and a status of 400 or above raises an
SPAPIError carrying status code, parsed response, url and method. -/
def execute_request (url method : String) : TransportResult → Except PyError RespData
  | .requestException msg =>
    .error (.spapiError ("Request failed: " ++ msg) { original_error := some msg })
  | .got r =>
    if r.status_code = 204 then .ok .success
    else
      let response_data := parse_body r
      if 400 ≤ r.status_code then
        .error (.spapiError ("API error " ++ toString r.status_code)
          { status_code := some r.status_code, response := some response_data,
            url := some url, method := some method })
      else .ok response_data

/-- Python truthiness of an optional string: None and the empty string are
falsy. -/
def strTruthy : Option String → Bool
  | none => false
  | some s => s != ""

/-- Cached token state of LWATokenManager: the access_token and
token_expires_at attributes, both initially None. Expiry instants are
rational seconds on the utcnow clock. -/
structure LWAState where
  access_token : Option String
  token_expires_at : Option ℚ
deriving DecidableEq

/-- The JSON body of a token-endpoint response: the access_token key may be
absent (the source then hits a KeyError), expires_in defaults to 3600. -/
structure TokenResponse where
  access_token : Option String
  expires_in : Option ℚ
deriving DecidableEq

/-- Failure of the token-endpoint POST: a requests.RequestException, which
also covers the raise_for_status branch. -/
inductive LWAFailure where
  | requestException (msg : String)
deriving DecidableEq

/-- Embedding of LWATokenManager._is_token_expired: expired when the token
or the recorded expiry is absent (or the token is the falsy empty string),
or when now plus the 5-minute (300 second) buffer reaches the expiry. -/
def is_token_expired (st : LWAState) (now : ℚ) : Bool :=
  match st.token_expires_at with
  | none => true
  | some exp =>
    if strTruthy st.access_token then decide (now + 300 ≥ exp) else true

/-- Embedding of LWATokenManager._refresh_access_token. The outcome of the
POST + raise_for_status + json() sequence is passed in; on HTTP failure the
source raises before touching any state, and when the access_token key is
missing the KeyError is raised while evaluating the right-hand side of the
assignment, so again before any state changes. On success both attributes
are assigned, with expiry now + expires_in (default 3600). -/
def refresh_access_token (now : ℚ) (resp : Except LWAFailure TokenResponse)
    (_st : LWAState) : Except String LWAState :=
  match resp with
  | .error (.requestException m) => .error ("LWA token refresh failed: " ++ m)
  | .ok td =>
    match td.access_token with
    | none => .error "Invalid LWA token response: access_token"
    | some tok =>
      .ok { access_token := some tok,
            token_expires_at := some (now + td.expires_in.getD 3600) }

/-- Embedding of LWATokenManager.get_access_token: refresh when the cached
token is expired or force_refresh is set, propagating a refresh failure
with the cache untouched; then raise unless a truthy token is cached, and
return it. Returns the result together with the post-call cached state. -/
def get_access_token (st : LWAState) (now : ℚ) (force_refresh : Bool)
    (resp : Except LWAFailure TokenResponse) : Except String String × LWAState :=
  if is_token_expired st now || force_refresh then
    match refresh_access_token now resp st with
    | .error e => (.error e, st)
    | .ok st' =>
      if strTruthy st'.access_token then (.ok (st'.access_token.getD ""), st')
      else (.error "Failed to obtain access token", st')
  else
    if strTruthy st.access_token then (.ok (st.access_token.getD ""), st)
    else (.error "Failed to obtain access token", st)

/-- One token bucket of RateLimiter: the four entries of the per-endpoint
dict. -/
structure Bucket where
  tokens : ℚ
  max_tokens : ℚ
  refill_rate : ℚ
  last_refill : ℚ
deriving DecidableEq

/-- The refill step at the top of the acquire loop: add elapsed time times
refill_rate, capped at max_tokens, and move last_refill to now. -/
def refill (b : Bucket) (now : ℚ) : Bucket :=
  { b with
    tokens := min b.max_tokens (b.tokens + (now - b.last_refill) * b.refill_rate),
    last_refill := now }

/-- The consumption test of the acquire loop: when at least one token is
available, consume exactly one and report the grant; otherwise leave the
bucket unchanged (the source then sleeps and loops). -/
def try_consume (b : Bucket) : Bucket × Bool :=
  if 1 ≤ b.tokens then ({ b with tokens := b.tokens - 1 }, true) else (b, false)

/-- One iteration of the while loop of RateLimiter.acquire, evaluated at
wall-clock instant now: refill then attempt to consume. -/
def acquire_step (b : Bucket) (now : ℚ) : Bucket × Bool :=
  try_consume (refill b now)

/-- A finite sequence of acquire-loop iterations at the given instants. -/
def run_acquires (b : Bucket) : List ℚ → Bucket
  | [] => b
  | t :: ts => run_acquires (acquire_step b t).1 ts

/-- The instants of a run are admissible when each is at least the
last_refill time current when it is observed: time.time() does not run
backwards across the iterations. -/
def ValidTimes (last : ℚ) : List ℚ → Prop
  | [] => True
  | t :: ts => last ≤ t ∧ ValidTimes t ts

/-- The bucket invariant claimed by the spec: tokens within 0 and
max_tokens. -/
def BucketInv (b : Bucket) : Prop :=
  0 ≤ b.tokens ∧ b.tokens ≤ b.max_tokens

/-- The default headers dict built at the top of SPAPIClient.request. -/
def base_headers : List (String × String) :=
  [("User-Agent", "amazon-sp-api-mcp/1.0.0"), ("Content-Type", "application/json")]

/-- Assignment of one key of a string dict, modelled on association lists:
replace the value when the key is present, otherwise append the pair. -/
def dict_set (d : List (String × String)) (k v : String) : List (String × String) :=
  if d.any (fun p => p.1 == k) then
    d.map (fun p => if p.1 == k then (k, v) else p)
  else d ++ [(k, v)]

/-- The dict.update call merging caller-supplied headers over the default
headers. -/
def dict_update (d upd : List (String × String)) : List (String × String) :=
  upd.foldl (fun acc p => dict_set acc p.1 p.2) d

/-- The header-assembly part of SPAPIClient.request: defaults, then the
caller headers, then the x-amz-access-token header, which holds the
restricted token only when use_rdt is set and rdt_token is truthy, and the
LWA access token otherwise. -/
def build_request_headers (user_headers : List (String × String)) (use_rdt : Bool)
    (rdt_token : Option String) (lwa_token : String) : List (String × String) :=
  let hs := dict_update base_headers user_headers
  if use_rdt && strTruthy rdt_token then
    dict_set hs "x-amz-access-token" (rdt_token.getD "")
  else
    dict_set hs "x-amz-access-token" lwa_token

/-- The AWSRequest record produced by AWSAuthManager.create_signed_request:
method, url, headers (after signing) and serialized body. -/
structure AWSRequest where
  method : String
  url : String
  headers : List (String × String)
  body : Option (List Nat)
deriving DecidableEq

/-- Embedding of AWSAuthManager.create_signed_request, parameterized over
the SigV4 signer: sign_request computes the signature headers from exactly
the method, the url, the headers and the body of the request it is handed,
so the signer is any function of those four inputs yielding the signed
header set. -/
def create_signed_request
    (signFn : String → String → List (String × String) → Option (List Nat) →
      List (String × String))
    (method url : String) (headers : List (String × String))
    (data : Option (List Nat)) : AWSRequest :=
  { method := method, url := url, headers := signFn method url headers data,
    body := data }

/-- The key=value fragments of the query string built in SPAPIClient.request:
entries whose value is None are skipped by the comprehension. -/
def query_fragments (params : List (String × Option String)) : List String :=
  params.filterMap (fun p => p.2.map (fun v => p.1 ++ "=" ++ v))

/-- The query-appending step of SPAPIClient.request: when the params dict is
truthy (non-empty, counting entries with None values), append a question
mark and the ampersand-joined fragments to the already-signed url. -/
def append_params (url : String) (params : List (String × Option String)) : String :=
  if params.isEmpty then url
  else url ++ "?" ++ String.intercalate "&" (query_fragments params)

/-- Embedding of the request-building part of SPAPIClient.request, from URL
construction to the AWSRequest handed to execute_with_retry: build the url
(urljoin passed in abstractly), assemble headers, sign over method, url,
headers and body, and only then append the query parameters to the url of
the signed request. -/
def build_pipeline_request
    (joinUrl : String → String → String)
    (signFn : String → String → List (String × String) → Option (List Nat) →
      List (String × String))
    (method base_url path : String)
    (params : List (String × Option String))
    (user_headers : List (String × String))
    (data : Option (List Nat)) (use_rdt : Bool) (rdt_token : Option String)
    (lwa_token : String) : AWSRequest :=
  let url := joinUrl base_url path
  let request_headers := build_request_headers user_headers use_rdt rdt_token lwa_token
  let aws_request := create_signed_request signFn method.toUpper url request_headers data
  { aws_request with url := append_params aws_request.url params }

/-- A retryable server-error instance: the SPAPIError raised by
_execute_request for an HTTP 503 response. -/
def err503 : PyError :=
  .spapiError "API error 503"
    { status_code := some 503, response := some (.rawContent "unavailable"),
      url := some "https://example/api", method := some "GET" }

/-- A non-retryable client-error instance: the SPAPIError raised by
_execute_request for an HTTP 404 response. -/
def err404 : PyError :=
  .spapiError "API error 404"
    { status_code := some 404, response := some (.rawContent "not found"),
      url := some "https://example/api", method := some "GET" }

/-- Claim C1, refuted by the code: a transport failure wrapped by the
pipeline is an SPAPIError whose details dict holds only original_error and
no status_code, so the classifier reads status_code as None, passes the
membership and 401 tests, and then evaluates 400 <= None, which raises
TypeError in Python; execute_with_retry therefore crashes with that
TypeError after a single attempt instead of retrying or propagating the
wrapped transport error. -/
theorem c1_wrapped_transport_failure_crashes_classifier :
    should_retry (.spapiError "Request failed: timed out"
      { original_error := some "timed out" }) = .error .typeError ∧
    execute_with_retry 3
      (fun _ => (.error (.spapiError "Request failed: timed out"
        { original_error := some "timed out" }) : Except PyError RespData)) =
      .crashed .typeError 1 := by
  constructor <;> rfl

/-- Claim C4: for a failed attempt carrying an HTTP status code, the
classifier answers retryable exactly when the status is one of 429, 500,
502, 503, 504 or equals 401, and in particular answers non-retryable for
every other status in the interval from 400 up to but excluding 500. -/
theorem c4_status_code_classification (msg : String) (d : SPAPIDetails) (sc : Nat)
    (h : d.status_code = some sc) :
    should_retry (.spapiError msg d) =
      .ok (decide (sc ∈ retry_status_codes ∨ sc = 401)) ∧
    (400 ≤ sc → sc < 500 → sc ∉ retry_status_codes → sc ≠ 401 →
      should_retry (.spapiError msg d) = .ok false) := by
  have htruthy : d.truthy = true := by
    simp [SPAPIDetails.truthy, h]
  constructor
  · simp only [should_retry, htruthy, if_true, h]
    by_cases h1 : sc ∈ retry_status_codes
    · simp [h1]
    · by_cases h2 : sc = 401
      · simp [h1, h2]
      · by_cases h3 : 400 ≤ sc ∧ sc < 500
        · simp [h1, h2, h3]
        · simp [h1, h2, h3]
  · intro h4 h5 h6 h7
    simp only [should_retry, htruthy, if_true, h]
    simp [h6, h7, h4, h5]

/-- Witness for c4_status_code_classification at status 503. -/
theorem c4_status_code_classification_witness :
    ({ status_code := some 503 } : SPAPIDetails).status_code = some 503 ∧
    should_retry (.spapiError "API error 503" { status_code := some 503 }) =
      .ok (decide ((503 : Nat) ∈ retry_status_codes ∨ (503 : Nat) = 401)) :=
  ⟨rfl, (c4_status_code_classification "API error 503" { status_code := some 503 }
      503 rfl).1⟩

/-- Claim C3: with max_retries equal to 3 the retry loop makes exactly 4
attempts when every attempt fails retryably and then propagates the error
of the final attempt; a single non-retryable failure such as HTTP 404
makes exactly 1 attempt and propagates immediately; and the failure
sequence 503, 503, success makes exactly 3 attempts and returns the value
of the third attempt. -/
theorem c3_retry_attempt_counts (errs : Nat → PyError)
    (hretry : ∀ k, should_retry (errs k) = .ok true) :
    execute_with_retry 3 (fun k => (.error (errs k) : Except PyError String)) =
      .failure (errs 3) 4 ∧
    execute_with_retry 3
      (fun k => if k = 0 then (.error err404 : Except PyError String) else .ok "ok") =
      .failure err404 1 ∧
    execute_with_retry 3
      (fun k => if k < 2 then (.error err503 : Except PyError String) else .ok "ok") =
      .success "ok" 3 := by
  refine ⟨?_, ?_, ?_⟩
  · simp [execute_with_retry, retry_loop, hretry 0, hretry 1, hretry 2]
  · rfl
  · rfl

/-- Witness for c3_retry_attempt_counts with every attempt failing with the
retryable 503 error. -/
theorem c3_retry_attempt_counts_witness :
    (∀ k : Nat, should_retry ((fun _ => err503) k) = .ok true) ∧
    execute_with_retry 3
      (fun k => (.error ((fun _ => err503) k) : Except PyError String)) =
      .failure ((fun _ => err503) 3) 4 :=
  ⟨fun _ => rfl, (c3_retry_attempt_counts (fun _ => err503) (fun _ => rfl)).1⟩

/-- Claim C5, refuted at attempt index 7: with the allowed jitter sample
one half, the computed delay is min 60 (2 to the 7 times one half) = 60,
which is strictly below the lower bound 2 to the 7 times one half = 64
asserted by the claim. -/
theorem c5_backoff_lower_bound_counterexample :
    ((1 : ℚ) / 2 ≤ 1 / 2 ∧ (1 : ℚ) / 2 < 3 / 2) ∧
    calculate_backoff 7 (1 / 2) = 60 ∧
    ¬ (2 ^ 7 * ((1 : ℚ) / 2) ≤ calculate_backoff 7 (1 / 2)) := by
  refine ⟨⟨le_refl _, by norm_num⟩, ?_, ?_⟩ <;>
    norm_num [calculate_backoff, min_def]

/-- Claim C5 as amended: the delay equals min 60 (2 to the k times jitter),
and for every jitter sample in the half-open interval from one half to
three halves it lies between min 60 (2 to the k times one half) and
min 60 (2 to the k times three halves); the original lower bound 2 to the
k times one half only holds unclamped while it does not exceed the
60-second cap. -/
theorem c5_backoff_bounds (k : Nat) (jitter : ℚ)
    (h1 : 1 / 2 ≤ jitter) (h2 : jitter < 3 / 2) :
    calculate_backoff k jitter = min 60 (2 ^ k * jitter) ∧
    min 60 (2 ^ k * (1 / 2)) ≤ calculate_backoff k jitter ∧
    calculate_backoff k jitter ≤ min 60 (2 ^ k * (3 / 2)) := by
  have hp : (0 : ℚ) < 2 ^ k := by positivity
  refine ⟨rfl, ?_, ?_⟩
  · exact min_le_min (le_refl 60)
      (mul_le_mul_of_nonneg_left h1 hp.le)
  · exact min_le_min (le_refl 60)
      (mul_le_mul_of_nonneg_left h2.le hp.le)

/-- Claim C8, refuted on the non-2xx wording: a 301 response is not 2xx,
yet _execute_request does not raise for it; the error check only fires at
status 400 and above, so the 301 body is parsed and returned as a success
value. -/
theorem c8_non_2xx_success_counterexample :
    execute_request "https://example/api" "GET" (.got ⟨301, "moved", false⟩) =
      .ok (.rawContent "moved") ∧
    ¬ (200 ≤ 301 ∧ 301 < 300) :=
  ⟨rfl, by decide⟩

/-- Claim C8 as amended: a 204 response yields the empty-success marker;
any other response below status 400 yields the parsed JSON body with the
raw-text fallback on parse failure; and every response with status 400 or
above raises an SPAPIError carrying exactly the status code, the parsed
response body, the request url and the method, and is never returned as a
success value. -/
theorem c8_response_handling (url method : String) (r : HttpResponse) :
    (r.status_code = 204 → execute_request url method (.got r) = .ok .success) ∧
    (r.status_code ≠ 204 → r.status_code < 400 →
      execute_request url method (.got r) = .ok (parse_body r)) ∧
    (400 ≤ r.status_code →
      execute_request url method (.got r) =
        .error (.spapiError ("API error " ++ toString r.status_code)
          { status_code := some r.status_code, response := some (parse_body r),
            url := some url, method := some method })) := by
  refine ⟨?_, ?_, ?_⟩
  · intro h
    simp [execute_request, h]
  · intro h1 h2
    have h3 : ¬ 400 ≤ r.status_code := by omega
    simp [execute_request, h1, h3]
  · intro h
    have h1 : r.status_code ≠ 204 := by omega
    simp [execute_request, h1, h]

/-- Witness for c8_response_handling at a 204 response. -/
theorem c8_response_handling_witness :
    (204 : Nat) = 204 ∧
    execute_request "https://example/api" "GET" (.got ⟨204, "", true⟩) =
      .ok .success :=
  ⟨rfl, (c8_response_handling "https://example/api" "GET" ⟨204, "", true⟩).1 rfl⟩

/-- Claim C6: the cached token is treated as expired exactly when it is
absent or when now plus the 300-second safety margin reaches the recorded
expiry; before T minus 300 a non-forced call returns the cached token
unchanged without consulting the token endpoint at all, and at or after
T minus 300, or when force_refresh is set, the refresh exchange is
performed: its failure surfaces instead of the cached token, and its
success replaces the cached token and expiry. -/
theorem c6_token_cache_expiry (tok : String) (T now : ℚ) (force : Bool)
    (htok : tok ≠ "") :
    is_token_expired ⟨some tok, some T⟩ now = decide (now + 300 ≥ T) ∧
    (∀ e : Option ℚ, is_token_expired ⟨none, e⟩ now = true) ∧
    (now + 300 < T →
      ∀ resp, get_access_token ⟨some tok, some T⟩ now false resp =
        (.ok tok, ⟨some tok, some T⟩)) ∧
    ((now + 300 ≥ T ∨ force = true) →
      (∀ m, get_access_token ⟨some tok, some T⟩ now force
          (.error (.requestException m)) =
        (.error ("LWA token refresh failed: " ++ m), ⟨some tok, some T⟩)) ∧
      (∀ td : TokenResponse, ∀ tok' : String, td.access_token = some tok' →
        (get_access_token ⟨some tok, some T⟩ now force (.ok td)).2 =
          ⟨some tok', some (now + td.expires_in.getD 3600)⟩)) := by
  have hbt : strTruthy (some tok) = true := by
    simp [strTruthy, htok]
  refine ⟨?_, ?_, ?_, ?_⟩
  · simp [is_token_expired, hbt]
  · intro e
    cases e <;> simp [is_token_expired, strTruthy]
  · intro hlt resp
    have hexp : is_token_expired ⟨some tok, some T⟩ now = false := by
      simp [is_token_expired, hbt]
      linarith
    simp [get_access_token, hexp, hbt]
  · intro hcond
    have hc : (is_token_expired ⟨some tok, some T⟩ now || force) = true := by
      rcases hcond with hge | hforce
      · simp [is_token_expired, hbt, hge]
      · simp [hforce]
    constructor
    · intro m
      simp [get_access_token, hc, refresh_access_token]
    · intro td tok' ha
      by_cases hs : strTruthy (some tok') = true <;>
        simp [get_access_token, hc, refresh_access_token, ha, hs]

/-- Witness for c6_token_cache_expiry with a token expiring at 10000. -/
theorem c6_token_cache_expiry_witness :
    ("tok" : String) ≠ "" ∧
    is_token_expired ⟨some "tok", some 10000⟩ 0 = decide ((0 : ℚ) + 300 ≥ 10000) :=
  ⟨by decide, (c6_token_cache_expiry "tok" 10000 0 false (by decide)).1⟩

/-- Claim C7: a failed token refresh is atomic on the cache: whenever the
refresh computation fails (the exchange request fails, or the access_token
key is missing from the response), get_access_token raises and leaves the
cached state exactly as it was, whether it held a previous token or was
still empty; and the refresh computation does fail on both of those
inputs. -/
theorem c7_refresh_failure_preserves_cache (st : LWAState) (now : ℚ) (force : Bool)
    (resp : Except LWAFailure TokenResponse) (e : String)
    (h : refresh_access_token now resp st = .error e) :
    (get_access_token st now force resp).2 = st ∧
    (∀ m, refresh_access_token now (.error (.requestException m)) st =
      .error ("LWA token refresh failed: " ++ m)) ∧
    (∀ td : TokenResponse, td.access_token = none →
      refresh_access_token now (.ok td) st =
        .error "Invalid LWA token response: access_token") := by
  refine ⟨?_, fun m => rfl, fun td h2 => by simp [refresh_access_token, h2]⟩
  by_cases hc : (is_token_expired st now || force) = true
  · simp [get_access_token, hc, h]
  · simp only [get_access_token, hc, if_false]
    by_cases hs : strTruthy st.access_token = true <;> simp [hs]

/-- Witness for c7_refresh_failure_preserves_cache on a failing exchange
with a previously cached token. -/
theorem c7_refresh_failure_preserves_cache_witness :
    refresh_access_token 0 (.error (.requestException "boom"))
        ⟨some "old", some 50⟩ =
      .error ("LWA token refresh failed: " ++ "boom") ∧
    (get_access_token ⟨some "old", some 50⟩ 0 false
        (.error (.requestException "boom"))).2 = ⟨some "old", some 50⟩ :=
  ⟨rfl, (c7_refresh_failure_preserves_cache ⟨some "old", some 50⟩ 0 false
      (.error (.requestException "boom"))
      ("LWA token refresh failed: " ++ "boom") rfl).1⟩

/-- One acquire-loop iteration preserves the bucket invariant when the
refill rate is nonnegative and the clock has not moved backwards, and it
moves last_refill to the observed instant while leaving max_tokens and
refill_rate untouched. -/
theorem acquire_step_bucket_inv (b : Bucket) (now : ℚ) (hr : 0 ≤ b.refill_rate)
    (hinv : BucketInv b) (hnow : b.last_refill ≤ now) :
    BucketInv (acquire_step b now).1 ∧
    (acquire_step b now).1.last_refill = now ∧
    (acquire_step b now).1.refill_rate = b.refill_rate ∧
    (acquire_step b now).1.max_tokens = b.max_tokens := by
  obtain ⟨h0, h1⟩ := hinv
  have hadd : 0 ≤ (now - b.last_refill) * b.refill_rate :=
    mul_nonneg (by linarith) hr
  have hmax : (0 : ℚ) ≤ b.max_tokens := le_trans h0 h1
  have hrt : 0 ≤ min b.max_tokens (b.tokens + (now - b.last_refill) * b.refill_rate) :=
    le_min hmax (by linarith)
  have hrt2 : min b.max_tokens (b.tokens + (now - b.last_refill) * b.refill_rate) ≤
      b.max_tokens := min_le_left _ _
  by_cases hge : 1 ≤ min b.max_tokens (b.tokens + (now - b.last_refill) * b.refill_rate)
  · simp only [acquire_step, try_consume, refill, BucketInv, if_pos hge]
    exact ⟨⟨by linarith, by linarith⟩, trivial, trivial, trivial⟩
  · simp only [acquire_step, try_consume, refill, BucketInv, if_neg hge]
    exact ⟨⟨hrt, hrt2⟩, trivial, trivial, trivial⟩

/-- The bucket invariant is preserved along any admissible sequence of
acquire-loop iterations. -/
theorem run_acquires_bucket_inv (ts : List ℚ) (b : Bucket)
    (hr : 0 ≤ b.refill_rate) (hinv : BucketInv b)
    (hts : ValidTimes b.last_refill ts) :
    BucketInv (run_acquires b ts) := by
  induction ts generalizing b with
  | nil => exact hinv
  | cons t ts ih =>
    obtain ⟨hle, hts'⟩ := hts
    have hstep := acquire_step_bucket_inv b t hr hinv hle
    have hr' : 0 ≤ (acquire_step b t).1.refill_rate := by
      rw [hstep.2.2.1]; exact hr
    have hts'' : ValidTimes (acquire_step b t).1.last_refill ts := by
      rw [hstep.2.1]; exact hts'
    exact ih (acquire_step b t).1 hr' hstep.1 hts''

/-- Claim C2: along every finite sequence of acquire-loop iterations taken
at instants that never run backwards, a bucket with nonnegative refill
rate keeps its token count within 0 and max_tokens; moreover the refill
step never pushes tokens above max_tokens, an iteration grants exactly
when the refilled bucket holds at least one token, a granted iteration
consumes exactly one token, and a denied iteration consumes none. -/
theorem c2_token_bucket_invariant (b : Bucket) (ts : List ℚ)
    (hr : 0 ≤ b.refill_rate) (h0 : 0 ≤ b.tokens) (h1 : b.tokens ≤ b.max_tokens)
    (hts : ValidTimes b.last_refill ts) :
    (0 ≤ (run_acquires b ts).tokens ∧
      (run_acquires b ts).tokens ≤ (run_acquires b ts).max_tokens) ∧
    (∀ c : Bucket, ∀ now : ℚ,
      (refill c now).tokens ≤ c.max_tokens ∧
      ((acquire_step c now).2 = true ↔ 1 ≤ (refill c now).tokens) ∧
      ((acquire_step c now).2 = true →
        (acquire_step c now).1.tokens = (refill c now).tokens - 1) ∧
      ((acquire_step c now).2 = false →
        (acquire_step c now).1.tokens = (refill c now).tokens)) := by
  constructor
  · exact run_acquires_bucket_inv ts b hr ⟨h0, h1⟩ hts
  · intro c now
    refine ⟨min_le_left _ _, ?_, ?_, ?_⟩ <;>
      by_cases hge : 1 ≤ (refill c now).tokens <;>
        simp [acquire_step, try_consume, hge]

/-- Witness for c2_token_bucket_invariant: a full bucket of capacity 10
with unit refill rate, exercised at instants 0, 1 and 2. -/
theorem c2_token_bucket_invariant_witness :
    (0 : ℚ) ≤ 1 ∧ (0 : ℚ) ≤ 10 ∧ (10 : ℚ) ≤ 10 ∧
    ValidTimes (0 : ℚ) [0, 1, 2] ∧
    ((0 ≤ (run_acquires ⟨10, 10, 1, 0⟩ [0, 1, 2]).tokens ∧
      (run_acquires ⟨10, 10, 1, 0⟩ [0, 1, 2]).tokens ≤
        (run_acquires ⟨10, 10, 1, 0⟩ [0, 1, 2]).max_tokens) ∧
    (∀ c : Bucket, ∀ now : ℚ,
      (refill c now).tokens ≤ c.max_tokens ∧
      ((acquire_step c now).2 = true ↔ 1 ≤ (refill c now).tokens) ∧
      ((acquire_step c now).2 = true →
        (acquire_step c now).1.tokens = (refill c now).tokens - 1) ∧
      ((acquire_step c now).2 = false →
        (acquire_step c now).1.tokens = (refill c now).tokens))) := by
  have hts : ValidTimes (0 : ℚ) [0, 1, 2] := by
    refine ⟨by norm_num, by norm_num, by norm_num, trivial⟩
  exact ⟨by norm_num, by norm_num, by norm_num, hts,
    c2_token_bucket_invariant ⟨10, 10, 1, 0⟩ [0, 1, 2]
      (by norm_num) (by norm_num) (by norm_num) hts⟩

/-- Claim C9: the signature headers of a built request are computed from
the method, the url without query parameters, the assembled headers and
the body, before the parameters are appended, so two requests differing
only in their params dict carry identical signature headers; and entries
of the params dict whose value is None contribute no fragment to the
appended query string. -/
theorem c9_params_outside_signature
    (joinUrl : String → String → String)
    (signFn : String → String → List (String × String) → Option (List Nat) →
      List (String × String))
    (method base_url path : String)
    (params1 params2 : List (String × Option String))
    (user_headers : List (String × String)) (data : Option (List Nat))
    (use_rdt : Bool) (rdt_token : Option String) (lwa_token : String) :
    (build_pipeline_request joinUrl signFn method base_url path params1
        user_headers data use_rdt rdt_token lwa_token).headers =
      (build_pipeline_request joinUrl signFn method base_url path params2
        user_headers data use_rdt rdt_token lwa_token).headers ∧
    (build_pipeline_request joinUrl signFn method base_url path params1
        user_headers data use_rdt rdt_token lwa_token).headers =
      signFn method.toUpper (joinUrl base_url path)
        (build_request_headers user_headers use_rdt rdt_token lwa_token) data ∧
    query_fragments params1 =
      query_fragments (params1.filter (fun p => p.2.isSome)) := by
  refine ⟨rfl, rfl, ?_⟩
  induction params1 with
  | nil => rfl
  | cons p ps ih =>
    cases h : p.2 with
    | none => simpa [query_fragments, List.filter_cons, h] using ih
    | some v => simpa [query_fragments, List.filter_cons, h] using ih

/-- Claim C10: requesting restricted-token mode without supplying a
restricted token does not fail; the header assembly falls back to the LWA
bearer token and the built request is identical to the one built with
restricted-token mode not requested at all. -/
theorem c10_rdt_fallback_without_token
    (joinUrl : String → String → String)
    (signFn : String → String → List (String × String) → Option (List Nat) →
      List (String × String))
    (method base_url path : String)
    (params : List (String × Option String))
    (user_headers : List (String × String)) (data : Option (List Nat))
    (rdt_token : Option String) (lwa_token : String) :
    build_pipeline_request joinUrl signFn method base_url path params
        user_headers data true none lwa_token =
      build_pipeline_request joinUrl signFn method base_url path params
        user_headers data false rdt_token lwa_token := rfl

/-- Witness for c5_backoff_bounds at attempt index 0 with jitter 1. -/
theorem c5_backoff_bounds_witness :
    ((1 : ℚ) / 2 ≤ 1 ∧ (1 : ℚ) < 3 / 2) ∧
    (calculate_backoff 0 1 = min 60 (2 ^ 0 * 1) ∧
      min 60 (2 ^ 0 * ((1 : ℚ) / 2)) ≤ calculate_backoff 0 1 ∧
      calculate_backoff 0 1 ≤ min 60 (2 ^ 0 * ((3 : ℚ) / 2))) :=
  ⟨⟨by norm_num, by norm_num⟩, c5_backoff_bounds 0 1 (by norm_num) (by norm_num)⟩
